import Mathlib

/-!
Shallow embedding of the client-side session manager of the Lumina social
app: `src/frontend/src/context/AuthContext.js` (the `AuthProvider` React
component), the route gates `ProtectedRoute` / `PublicRoute` of the app
root, and the `handleSubmit` handler of `src/frontend/src/pages/AuthPage.js`.

Modelling conventions:
* An `Identity` (the backend's user record) is an association list of
  string fields; JS object spread `{...prev, ...next}` becomes
  `spreadMerge` (later keys win, other keys kept).
* The provider's mutable pieces — the persisted `localStorage` slot
  `token`, and the React state cells `token`, `user`, `loading` — form a
  `World`.  React `setX` calls become functional updates of the `World`.
* Network calls are passed in as explicit outcomes: a resolved promise is
  `Except.ok`, a rejected one `Except.error` (an axios error carrying
  `error.response?.data?.detail` as an `Option String`).  An async
  function that throws before its first mutation maps to a function that
  returns the error with the state untouched.
* React render/closure semantics: the `api` factory is a `useCallback`
  with dependency `[token]`, so a render of world `w` produces the closure
  `apiAtRender w`; event handlers of that render keep using it until a
  re-render.  The `useEffect` with dependencies `[token, api]` re-runs
  after any render in which `token` changed (`tokenDepChanged`), and its
  body `fetchUser` issues a `GET /auth/me` exactly when the current token
  is truthy — non-null and non-empty (`effectWillFetch`).
-/

namespace Lumina

/-- A backend user record, opaque to the session manager: field name/value pairs. -/
abbrev Identity := List (String × String)

/-- JS object spread `\x7b...prev, ...fields\x7d`: every key of `fields` wins,
keys only in `prev` keep their `prev` value.  Spreading `null` contributes
nothing, which `prev = []` models. -/
def spreadMerge (prev fields : Identity) : Identity :=
  prev.filter (fun p => (fields.lookup p.1).isNone) ++ fields

/-- The axios instance produced by `api()`: `axios.create({ baseURL: API_URL,
headers: token ? { Authorization: Bearer token } : {} })`. -/
structure Client where
  baseURL : String
  authHeader : Option String
deriving DecidableEq

/-- `API_URL = process.env.REACT_APP_BACKEND_URL + '/api'`, with the
environment value as a parameter. -/
def apiUrl (backendUrl : String) : String := backendUrl ++ "/api"

/-- The `api` factory body, as a function of the token it closed over.
JS truthiness: `null` and the empty string both yield the empty headers
object, so no `Authorization` header at all. -/
def mkApi (backendUrl : String) (token : Option String) : Client :=
  { baseURL := apiUrl backendUrl
    authHeader :=
      match token with
      | some t => if t = "" then none else some ("Bearer " ++ t)
      | none => none }

/-- The provider's mutable state: the persisted `localStorage` slot and the
three React state cells of `AuthProvider`. -/
structure World where
  storage : Option String
  token : Option String
  user : Option Identity
  loading : Bool
deriving DecidableEq

/-- `AuthProvider` at mount: `user = null`, `token =
localStorage.getItem('token')`, `loading = true`. -/
def initialWorld (persisted : Option String) : World :=
  { storage := persisted, token := persisted, user := none, loading := true }

/-- Outcome of the effect's `GET /auth/me` request. -/
inductive FetchResult where
  | ok (identity : Identity)
  | err
deriving DecidableEq

/-- JS truthiness of the token value: `null` and the empty string are
falsy, every other string is truthy. -/
def truthy : Option String → Bool
  | none => false
  | some t => !(t = "")

/-- One run of the `fetchUser` effect body: `if (token)` — the token is
truthy — issue the identity fetch and apply its outcome (success stores
the identity; any error removes the persisted token and clears `token`
and `user`); with a falsy token no request is made and nothing is
touched; in every case end with `setLoading(false)`. -/
def runEffect (w : World) (r : FetchResult) : World :=
  if truthy w.token then
    match r with
    | .ok id => { w with user := some id, loading := false }
    | .err => { w with storage := none, token := none, user := none, loading := false }
  else { w with loading := false }

/-- `login(email, password)` given the backend's response: on success
persist the new token, set `token` and `user`, and return the user; a
rejected request throws before any of those mutations, so the state is
returned untouched together with the error. -/
def login (w : World) (resp : Except (Option String) (String × Identity)) :
    World × Except (Option String) Identity :=
  match resp with
  | .ok (newToken, userData) =>
    ({ w with storage := some newToken, token := some newToken, user := some userData },
      .ok userData)
  | .error e => (w, .error e)

/-- `register(...)`: same body as `login` after the backend call. -/
def registerAccount (w : World) (resp : Except (Option String) (String × Identity)) :
    World × Except (Option String) Identity :=
  match resp with
  | .ok (newToken, userData) =>
    ({ w with storage := some newToken, token := some newToken, user := some userData },
      .ok userData)
  | .error e => (w, .error e)

/-- `logout()`: remove the persisted token, `setToken(null)`, `setUser(null)`;
no network call. -/
def logout (w : World) : World :=
  { w with storage := none, token := none, user := none }

/-- `updateUser(userData)`: `setUser(prev => ({...prev, ...userData}))`.
When `prev` is `null` the spread contributes nothing, so the new `user`
is an object built from `userData` alone. -/
def updateUser (w : World) (userData : Identity) : World :=
  { w with user := some (spreadMerge (w.user.getD []) userData) }

/-- The spec's session statuses. -/
inductive Status where
  | resolving
  | anonymous
  | authenticated
deriving DecidableEq

/-- The session status the rendering layer observes, exactly as the route
gates read it: `loading` means the initial credential check is unresolved,
otherwise a present `user` means authenticated. -/
def status (w : World) : Status :=
  if w.loading then .resolving
  else if w.user.isSome then .authenticated
  else .anonymous

/-- What a route gate renders. -/
inductive Gate where
  | placeholder
  | redirectToAuth
  | redirectToHome
  | renderChildren
deriving DecidableEq

/-- `ProtectedRoute`: loading placeholder while `loading`; `Navigate
to="/auth"` when `user` is absent; otherwise render the children. -/
def protectedRoute (w : World) : Gate :=
  if w.loading then .placeholder
  else if w.user.isNone then .redirectToAuth
  else .renderChildren

/-- `PublicRoute`: loading placeholder while `loading`; `Navigate to="/"`
when `user` is present; otherwise render the children. -/
def publicRoute (w : World) : Gate :=
  if w.loading then .placeholder
  else if w.user.isSome then .redirectToHome
  else .renderChildren

/-- The `api` closure held by the render of world `w`: `useCallback`
with dependency `[token]` captures `w.token`; event handlers of that
render keep this closure until the next render. -/
def apiAtRender (backendUrl : String) (w : World) : Client :=
  mkApi backendUrl w.token

/-- The `useEffect` has dependencies `[token, api]` (and `api` itself
changes exactly when `token` does), so the effect re-runs after any render
in which the token differs from the previous render's. -/
def tokenDepChanged (w w' : World) : Bool := w.token ≠ w'.token

/-- Whether a run of the `fetchUser` effect body issues a `GET /auth/me`
request: it does exactly when the token is truthy (`if (token) { ... }`,
so neither `null` nor the empty string). -/
def effectWillFetch (w : World) : Bool := truthy w.token

/-- The session-manager operations as events on the provider state. -/
inductive Act where
  | effect (r : FetchResult)
  | loginOk (t : String) (u : Identity)
  | loginErr (e : Option String)
  | registerOk (t : String) (u : Identity)
  | registerErr (e : Option String)
  | logoutAct
  | update (fields : Identity)
deriving DecidableEq

/-- Apply one event to the provider state. -/
def step (w : World) : Act → World
  | .effect r => runEffect w r
  | .loginOk t u => (login w (.ok (t, u))).1
  | .loginErr e => (login w (.error e)).1
  | .registerOk t u => (registerAccount w (.ok (t, u))).1
  | .registerErr e => (registerAccount w (.error e)).1
  | .logoutAct => logout w
  | .update fields => updateUser w fields

/-- Run a sequence of events. -/
def run (w : World) (acts : List Act) : World := acts.foldl step w

/-- Whether an event respects the repository's calling discipline: every
caller of `updateUser` sits behind `ProtectedRoute`, so `updateUser` fires
only while the session is authenticated; the other events are unrestricted. -/
def actOk (w : World) : Act → Bool
  | .update _ => status w = .authenticated
  | _ => true

/-- An event sequence in which `updateUser` is only invoked while the
session is authenticated (as every caller in the repository does). -/
def guarded (w : World) : List Act → Bool
  | [] => true
  | a :: as => actOk w a && guarded (step w a) as

/-- The spec's session invariant: authenticated exactly when both the token
and the identity are present. -/
def sessionInv (w : World) : Bool :=
  (status w = .authenticated) = (w.token.isSome && w.user.isSome)

/-- The error toast of `AuthPage.handleSubmit`'s catch branch:
`error.response?.data?.detail || 'Something went wrong'` (JS `||`: an
absent or empty detail falls back). -/
def submitErrMsg (e : Option String) : String :=
  match e with
  | some d => if d = "" then "Something went wrong" else d
  | none => "Something went wrong"

/-- What `handleSubmit` surfaces to the user. -/
inductive Toast where
  | ok (msg : String)
  | fail (msg : String)
deriving DecidableEq

/-- `AuthPage.handleSubmit`: await `login` (or `register`); on success toast
a success message, on a caught rejection toast the backend detail or the
generic fallback.  The resulting provider state is returned alongside. -/
def submitOutcome (w : World) (isLogin : Bool)
    (resp : Except (Option String) (String × Identity)) : World × Toast :=
  match (if isLogin then login w resp else registerAccount w resp) with
  | (w', .ok _) =>
    (w', .ok (if isLogin then "Welcome back!" else "Account created successfully!"))
  | (w', .error e) => (w', .fail (submitErrMsg e))

/-! Helper lemmas. -/

theorem lookup_spreadMerge_some (prev fields : Identity) (k v : String)
    (h : fields.lookup k = some v) : (spreadMerge prev fields).lookup k = some v := by
  induction prev with
  | nil => exact h
  | cons p ps ih =>
    obtain ⟨a, b⟩ := p
    cases hk : k == a with
    | true =>
      have ha : k = a := eq_of_beq hk
      subst ha
      have hkeep : (fields.lookup k).isNone = false := by simp [h]
      simp only [spreadMerge, List.filter, hkeep, List.lookup, hk]
      exact ih
    | false =>
      cases hkeep : (fields.lookup a).isNone with
      | true =>
        simp only [spreadMerge, List.filter, hkeep, List.cons_append, List.lookup, hk]
        exact ih
      | false =>
        simp only [spreadMerge, List.filter, hkeep, List.lookup, hk]
        exact ih

theorem lookup_spreadMerge_none (prev fields : Identity) (k : String)
    (h : fields.lookup k = none) : (spreadMerge prev fields).lookup k = prev.lookup k := by
  induction prev with
  | nil => exact h
  | cons p ps ih =>
    obtain ⟨a, b⟩ := p
    cases hk : k == a with
    | true =>
      have ha : k = a := eq_of_beq hk
      subst ha
      have hkeep : (fields.lookup k).isNone = true := by simp [h]
      simp only [spreadMerge, List.filter, hkeep, List.cons_append, List.lookup, hk]
    | false =>
      cases hkeep : (fields.lookup a).isNone with
      | true =>
        simp only [spreadMerge, List.filter, hkeep, List.cons_append, List.lookup, hk]
        exact ih
      | false =>
        simp only [spreadMerge, List.filter, hkeep, List.lookup, hk]
        exact ih

/-- Strengthened invariant for the induction: the initial credential check
has resolved, and an identity is never held without a token. -/
def wf (w : World) : Bool :=
  !w.loading && (!w.user.isSome || w.token.isSome)

theorem wf_sessionInv (w : World) (h : wf w = true) : sessionInv w = true := by
  obtain ⟨s, tok, us, ld⟩ := w
  cases ld <;> cases us <;> cases tok <;>
    simp_all [wf, sessionInv, status]

theorem wf_base (p : Option String) (r : FetchResult) :
    wf (runEffect (initialWorld p) r) = true := by
  cases p with
  | none => cases r <;> rfl
  | some t =>
    by_cases ht : t = "" <;> cases r <;>
      simp [wf, runEffect, initialWorld, truthy, ht]

theorem wf_step (w : World) (a : Act) (hw : wf w = true) (ha : actOk w a = true) :
    wf (step w a) = true := by
  obtain ⟨s, tok, us, ld⟩ := w
  cases a with
  | effect r =>
    cases tok with
    | none => cases r <;> simp_all [wf, step, runEffect, truthy]
    | some t =>
      by_cases ht : t = "" <;> cases r <;>
        simp_all [wf, step, runEffect, truthy, ht]
  | loginOk t u => simp_all [wf, step, login]
  | loginErr e => simp_all [wf, step, login]
  | registerOk t u => simp_all [wf, step, registerAccount]
  | registerErr e => simp_all [wf, step, registerAccount]
  | logoutAct => simp_all [wf, step, logout]
  | update fields =>
    cases ld <;> cases us <;> cases tok <;>
      simp_all [wf, step, updateUser, actOk, status]

theorem wf_run (acts : List Act) (w : World) (hw : wf w = true)
    (hg : guarded w acts = true) : wf (run w acts) = true := by
  induction acts generalizing w with
  | nil => simpa [run]
  | cons a as ih =>
    rw [guarded, Bool.and_eq_true] at hg
    have h1 : wf (step w a) = true := wf_step w a hw hg.1
    simpa [run, List.foldl] using ih (step w a) h1 hg.2

/-! Claim theorems. -/

/-- C1, counterexample: from a resolved anonymous session, `logout()` fires
and only afterwards does a pending `login` response for token `"T1"` get
processed; the continuation of `login` applies it unconditionally, so the
final status is `authenticated` — not `anonymous` as the claim states —
and the stale token is both stored and persisted. -/
theorem c1_counterexample :
    status ((login (logout (runEffect (initialWorld none) FetchResult.err))
        (.ok ("T1", [("id", "1")]))).1) = Status.authenticated
    ∧ ((login (logout (runEffect (initialWorld none) FetchResult.err))
        (.ok ("T1", [("id", "1")]))).1).token = some "T1"
    ∧ ((login (logout (runEffect (initialWorld none) FetchResult.err))
        (.ok ("T1", [("id", "1")]))).1).storage = some "T1"
    ∧ ¬ status ((login (logout (runEffect (initialWorld none) FetchResult.err))
        (.ok ("T1", [("id", "1")]))).1) = Status.anonymous := by
  decide

/-- C1, amended: `login` has no stale-response guard, so for every resolved
session state, when a `logout()` is followed by the arrival of a successful
login response, the response is applied: the final status is
`authenticated` and the response's token is stored and persisted (the
logged-out session is resurrected; logout does not win). -/
theorem c1_theorem (w : World) (t : String) (u : Identity) (h : w.loading = false) :
    status ((login (logout w) (.ok (t, u))).1) = Status.authenticated
    ∧ ((login (logout w) (.ok (t, u))).1).token = some t
    ∧ ((login (logout w) (.ok (t, u))).1).storage = some t := by
  refine ⟨?_, rfl, rfl⟩
  simp [status, login, logout, h]

theorem c1_witness :
    (runEffect (initialWorld none) FetchResult.err).loading = false
    ∧ (status ((login (logout (runEffect (initialWorld none) FetchResult.err))
          (.ok ("T9", [("id", "9")]))).1) = Status.authenticated
        ∧ ((login (logout (runEffect (initialWorld none) FetchResult.err))
          (.ok ("T9", [("id", "9")]))).1).token = some "T9"
        ∧ ((login (logout (runEffect (initialWorld none) FetchResult.err))
          (.ok ("T9", [("id", "9")]))).1).storage = some "T9") :=
  ⟨by decide, c1_theorem (runEffect (initialWorld none) FetchResult.err) "T9"
    [("id", "9")] (by decide)⟩

/-- C2, counterexample: a session authenticated under token `"T0"` runs a
`login` that issues token `"T1"`; before any re-render the event handler
still holds the `api` closure of the pre-login render, and that closure's
client carries `Bearer T0` — the prior token — contradicting the claim. -/
theorem c2_counterexample :
    ((login (runEffect (initialWorld (some "T0")) (FetchResult.ok [("id", "0")]))
        (.ok ("T1", [("id", "1")]))).1).token = some "T1"
    ∧ (apiAtRender "B" (runEffect (initialWorld (some "T0"))
        (FetchResult.ok [("id", "0")]))).authHeader = some "Bearer T0"
    ∧ ¬ (apiAtRender "B" (runEffect (initialWorld (some "T0"))
        (FetchResult.ok [("id", "0")]))).authHeader = some "Bearer T1" := by
  decide

/-- C2, amended: the `api` factory is a `useCallback` over `token`, rebuilt
only at a re-render; a call made through the closure of the pre-login
render still carries the prior token, and only the closure of the first
render after `login` carries the newly issued token. -/
theorem c2_theorem (b : String) (w : World) (t : String) (u : Identity) (h : ¬ t = "") :
    (apiAtRender b ((login w (.ok (t, u))).1)).authHeader = some ("Bearer " ++ t) := by
  simp [apiAtRender, mkApi, login, h]

theorem c2_witness :
    (apiAtRender "B" ((login (runEffect (initialWorld none) FetchResult.err)
        (.ok ("T1", [("id", "1")]))).1)).authHeader = some ("Bearer " ++ "T1") :=
  c2_theorem "B" (runEffect (initialWorld none) FetchResult.err) "T1"
    [("id", "1")] (by decide)

/-- C3, counterexample: after a resolved anonymous session, calling
`updateUser` (the spec's `updateIdentity`) spreads into a `null` identity
and creates one, so the session reaches a state with an identity present,
no token, and observed status `authenticated` — the invariant fails after
an `updateIdentity` operation. -/
theorem c3_counterexample :
    status (run (initialWorld none)
        [Act.effect FetchResult.err, Act.update [("username", "a")]]) = Status.authenticated
    ∧ (run (initialWorld none)
        [Act.effect FetchResult.err, Act.update [("username", "a")]]).token = none
    ∧ sessionInv (run (initialWorld none)
        [Act.effect FetchResult.err, Act.update [("username", "a")]]) = false := by
  decide

/-- C3, amended: after the initial credential check and along any event
sequence of login, register, logout, effect runs and `updateUser` calls in
which `updateUser` fires only while authenticated (as every caller in the
repository does), the invariant holds: status is `authenticated` exactly
when both the token and the identity are present. -/
theorem c3_theorem (p : Option String) (r : FetchResult) (acts : List Act)
    (hg : guarded (runEffect (initialWorld p) r) acts = true) :
    sessionInv (run (runEffect (initialWorld p) r) acts) = true :=
  wf_sessionInv _ (wf_run acts _ (wf_base p r) hg)

theorem c3_witness :
    guarded (runEffect (initialWorld (some "T0")) (FetchResult.ok [("id", "1")]))
        [Act.update [("bio", "x")], Act.logoutAct, Act.loginOk "T1" [("id", "1")]] = true
    ∧ sessionInv (run (runEffect (initialWorld (some "T0")) (FetchResult.ok [("id", "1")]))
        [Act.update [("bio", "x")], Act.logoutAct, Act.loginOk "T1" [("id", "1")]]) = true :=
  ⟨by decide, c3_theorem (some "T0") (FetchResult.ok [("id", "1")])
    [Act.update [("bio", "x")], Act.logoutAct, Act.loginOk "T1" [("id", "1")]] (by decide)⟩

/-- C4: a failed `login` (and `register`) rejects before its first
mutation, so the whole provider state — persisted token, in-memory token,
identity, loading flag — is exactly what it was before the call, and the
backend's error is the returned outcome. -/
theorem c4_theorem (w : World) (e : Option String) :
    login w (.error e) = (w, .error e) ∧ registerAccount w (.error e) = (w, .error e) :=
  ⟨rfl, rfl⟩

/-- C5: the route gates render by session status alone: `ProtectedRoute`
renders its children exactly in `authenticated`, a placeholder exactly in
`resolving`, a redirect to the auth view exactly in `anonymous`;
`PublicRoute` renders its children exactly in `anonymous`, a placeholder
exactly in `resolving`, and a redirect to the default protected view
exactly in `authenticated`. -/
theorem c5_theorem (w : World) :
    (protectedRoute w = Gate.renderChildren ↔ status w = Status.authenticated)
    ∧ (protectedRoute w = Gate.placeholder ↔ status w = Status.resolving)
    ∧ (protectedRoute w = Gate.redirectToAuth ↔ status w = Status.anonymous)
    ∧ (publicRoute w = Gate.renderChildren ↔ status w = Status.anonymous)
    ∧ (publicRoute w = Gate.placeholder ↔ status w = Status.resolving)
    ∧ (publicRoute w = Gate.redirectToHome ↔ status w = Status.authenticated) := by
  obtain ⟨s, tok, us, ld⟩ := w
  cases ld <;> cases us <;>
    simp [protectedRoute, publicRoute, status]

/-- C6: when the initial credential check runs with a persisted token that
triggers the identity fetch (the token is truthy, so a fetch exists to
fail) and that fetch fails for any reason, the session ends `anonymous`
with no identity and the persisted token removed; and a further run of
the check from that state is identical to a run that never had a
persisted token. -/
theorem c6_theorem (t : String) (r : FetchResult)
    (h : effectWillFetch (initialWorld (some t)) = true) :
    status (runEffect (initialWorld (some t)) FetchResult.err) = Status.anonymous
    ∧ (runEffect (initialWorld (some t)) FetchResult.err).user = none
    ∧ (runEffect (initialWorld (some t)) FetchResult.err).storage = none
    ∧ (runEffect (initialWorld (some t)) FetchResult.err).token = none
    ∧ runEffect (runEffect (initialWorld (some t)) FetchResult.err) r
        = runEffect (initialWorld none) r := by
  have ht : ¬ t = "" := by
    simpa [effectWillFetch, initialWorld, truthy] using h
  simp [runEffect, initialWorld, truthy, ht, status]

theorem c6_witness :
    effectWillFetch (initialWorld (some "T0")) = true
    ∧ (status (runEffect (initialWorld (some "T0")) FetchResult.err) = Status.anonymous
        ∧ (runEffect (initialWorld (some "T0")) FetchResult.err).user = none
        ∧ (runEffect (initialWorld (some "T0")) FetchResult.err).storage = none
        ∧ (runEffect (initialWorld (some "T0")) FetchResult.err).token = none
        ∧ runEffect (runEffect (initialWorld (some "T0")) FetchResult.err) FetchResult.err
            = runEffect (initialWorld none) FetchResult.err) :=
  ⟨by decide, c6_theorem "T0" FetchResult.err (by decide)⟩

/-- C7: expected failures never escape as exceptions into rendering: a
rejected `login`/`register` is caught by `handleSubmit`, which leaves the
provider state untouched and surfaces an error toast — the backend detail
when one is present, the generic fallback otherwise — and an expired
session during the initial check resolves to forced-`anonymous`. -/
theorem c7_theorem (w : World) (isLogin : Bool) (e : Option String) (t : String) :
    (submitOutcome w isLogin (.error e)).1 = w
    ∧ (submitOutcome w isLogin (.error e)).2 = Toast.fail (submitErrMsg e)
    ∧ (∀ d : String, ¬ d = "" → submitErrMsg (some d) = d)
    ∧ status (runEffect (initialWorld (some t)) FetchResult.err) = Status.anonymous := by
  refine ⟨?_, ?_, ?_, ?_⟩
  · cases isLogin <;> rfl
  · cases isLogin <;> rfl
  · intro d hd
    simp [submitErrMsg, hd]
  · by_cases ht : t = "" <;>
      simp [runEffect, initialWorld, truthy, ht, status]

/-- C8, counterexample: after the initial credential check has completed
(no persisted token, session anonymous), a successful `login` changes the
`token` dependency of the `useEffect`, so the effect re-runs — and because
a token is now held, that re-run issues another `GET /auth/me` identity
fetch, contradicting "executes exactly once per process lifetime". -/
theorem c8_counterexample :
    tokenDepChanged (runEffect (initialWorld none) FetchResult.err)
        (step (runEffect (initialWorld none) FetchResult.err)
          (Act.loginOk "T1" [("id", "1")])) = true
    ∧ effectWillFetch (step (runEffect (initialWorld none) FetchResult.err)
        (Act.loginOk "T1" [("id", "1")])) = true := by
  decide

/-- C8, amended: the persisted token is read only once (at provider state
construction), but the identity-check effect depends on `[token, api]`
and re-runs on every token change: after any successful `login` that
installs a non-empty token different from the current one, the dependency
changed and the re-run performs a repeat identity fetch; after `logout`
the dependency also changes but the re-run performs no fetch and only
clears the loading flag. -/
theorem c8_theorem (w : World) (t : String) (u : Identity) (r : FetchResult)
    (h : ¬ w.token = some t) (ht : ¬ t = "") :
    tokenDepChanged w (step w (Act.loginOk t u)) = true
    ∧ effectWillFetch (step w (Act.loginOk t u)) = true
    ∧ effectWillFetch (logout w) = false
    ∧ runEffect (logout w) r = { logout w with loading := false } := by
  refine ⟨?_, ?_, rfl, rfl⟩
  · simp [tokenDepChanged, step, login, h]
  · simp [effectWillFetch, step, login, truthy, ht]

theorem c8_witness :
    tokenDepChanged (runEffect (initialWorld none) FetchResult.err)
        (step (runEffect (initialWorld none) FetchResult.err)
          (Act.loginOk "T2" [("id", "2")])) = true
    ∧ effectWillFetch (step (runEffect (initialWorld none) FetchResult.err)
        (Act.loginOk "T2" [("id", "2")])) = true
    ∧ effectWillFetch (logout (runEffect (initialWorld none) FetchResult.err)) = false
    ∧ runEffect (logout (runEffect (initialWorld none) FetchResult.err)) FetchResult.err
        = { logout (runEffect (initialWorld none) FetchResult.err) with loading := false } :=
  c8_theorem (runEffect (initialWorld none) FetchResult.err) "T2" [("id", "2")]
    FetchResult.err (by decide) (by decide)

/-- C9, counterexample: `updateUser` called while the session is anonymous
is not a no-op and not an error: `setUser(prev => ({...prev, ...fields}))`
spreads into `null` and creates an identity from the fields alone, so an
identity becomes present without a token and the observed status becomes
`authenticated`, violating the session invariant. -/
theorem c9_counterexample :
    (updateUser (runEffect (initialWorld none) FetchResult.err)
        [("username", "a")]).user = some [("username", "a")]
    ∧ (updateUser (runEffect (initialWorld none) FetchResult.err)
        [("username", "a")]).token = none
    ∧ status (updateUser (runEffect (initialWorld none) FetchResult.err)
        [("username", "a")]) = Status.authenticated
    ∧ sessionInv (updateUser (runEffect (initialWorld none) FetchResult.err)
        [("username", "a")]) = false := by
  decide

/-- C9, amended: `updateUser` performs no network call and never touches
the token or the persisted token.  Called while `authenticated` it
replaces the identity by the shallow merge of the previous identity and
the given fields: every field named in the update takes its new value and
every other field keeps its previous one.  Called while `anonymous` it is
not a no-op: the spread into the `null` identity makes the identity equal
to the given fields while the token stays absent. -/
theorem c9_theorem (w : World) (fields : Identity) :
    ((updateUser w fields).token = w.token
      ∧ (updateUser w fields).storage = w.storage
      ∧ (updateUser w fields).loading = w.loading)
    ∧ (status w = Status.authenticated →
        (updateUser w fields).user = some (spreadMerge (w.user.getD []) fields)
        ∧ (∀ k v : String, fields.lookup k = some v →
            ((updateUser w fields).user.getD []).lookup k = some v)
        ∧ (∀ k : String, fields.lookup k = none →
            ((updateUser w fields).user.getD []).lookup k = (w.user.getD []).lookup k))
    ∧ (status w = Status.anonymous → (updateUser w fields).user = some fields) := by
  refine ⟨⟨rfl, rfl, rfl⟩, ?_, ?_⟩
  · intro _
    refine ⟨rfl, ?_, ?_⟩
    · intro k v h
      exact lookup_spreadMerge_some (w.user.getD []) fields k v h
    · intro k h
      exact lookup_spreadMerge_none (w.user.getD []) fields k h
  · intro h
    have hu : w.user = none := by
      obtain ⟨s, tok, us, ld⟩ := w
      cases ld <;> cases us <;> simp_all [status]
    simp [updateUser, hu, spreadMerge]

/-- C10: the request-client factory invoked while no token is held
produces a client whose headers object is empty: no `Authorization`
header at all, not an empty bearer value. -/
theorem c10_theorem (b : String) :
    mkApi b none = { baseURL := apiUrl b, authHeader := none }
    ∧ (mkApi b none).authHeader = none :=
  ⟨rfl, rfl⟩

end Lumina
